import Mathlib

/-!
Shallow embedding of `custom_components/windhager/client.py`
(class `WindhagerHttpClient`): the spec-driven device-model builder,
the fetch pipeline, the eco/comfort default-duration state, the spec
loader fallback and `slugify`.

Conventions of the embedding:
* Python `dict.get(k)` on an optional JSON field is an `Option` field
  (`none` models a missing key or JSON `null`).
* Python string truthiness (`if oids.get(k):`) is `none`-or-`""` = falsy.
* The HTTP transport is a function `String → Except String LookupResponse`;
  an `Except.error` models a raised transport/auth exception, which
  `_lookup` absorbs into `none` (`Except.toOption`).
* Python dicts built by the fetch loop are association lists in insertion
  order; since the loop iterates over `sorted(set(...))`, keys are unique
  and `List.lookup` matches dict lookup.
* Keys that the code stores with constant value `None` and that nothing
  reads (`device_class`, `state_class`, `unit` on pump/mixer sensor
  devices) are elided from the `Device` structure.
-/

namespace Windhager

/-- Role-to-OID mapping of one heating circuit, mirroring the JSON object
`hk["oids"]`; each field models `oids.get(role)` (`none` = key missing). -/
structure HKOids where
  mode : Option String
  comfort_offset : Option String
  eco_temp : Option String
  eco_duration : Option String
  room_temp : Option String
  room_target_ro : Option String
  flow_temp : Option String
  flow_target : Option String
  dhw_temp : Option String
  dhw_target_ro : Option String
  outside_temp : Option String
  pump : Option String
  mixer : Option String
deriving DecidableEq

/-- One heating-circuit block of `spec.json` (`hk["name"]`, `hk["node"]`,
`hk["fct"]`, `hk["oids"]` are accessed as required keys). -/
structure HK where
  name : String
  node : Nat
  fct : Nat
  oids : HKOids
deriving DecidableEq

/-- One sensor entry of a module block (`s["oid"]`, `s["name"]`). -/
structure ModuleSensor where
  oid : String
  name : String
deriving DecidableEq

/-- One module block of `spec.json`; `sensors` models
`module.get("sensors", [])`, hence optional. -/
structure ModuleSpec where
  name : String
  node : Nat
  fct : Nat
  sensors : Option (List ModuleSensor)
deriving DecidableEq

/-- The parsed `spec.json` document. Every field the client reads with a
`.get` default is optional here. -/
structure SpecDoc where
  heating_circuits : Option (List HK)
  modules : Option (List ModuleSpec)
  unknown_values : Option (List String)
  eco_default_duration_minutes : Option Int
deriving DecidableEq

/-- The fallback document `_load_spec` builds on any load error:
the JSON text is `\x7b"heating_circuits": [], "modules": []\x7d`, so the
two list keys are present (empty) and the other keys are missing. -/
def fallbackSpec : SpecDoc :=
  { heating_circuits := some []
    modules := some []
    unknown_values := none
    eco_default_duration_minutes := none }

/-- Embedding of `_load_spec`: `parsed` is the outcome of
`json.load` (`Except.error` = any parse/IO exception); the `try/except`
turns every error into the fallback document. -/
def loadSpec (parsed : Except String SpecDoc) : SpecDoc :=
  match parsed with
  | .ok spec => spec
  | .error _ => fallbackSpec

/-- Embedding of `set(self._spec.get("unknown_values", ["-.-", ""]))`
from `__init__` (kept as a list; membership is what the set is used for). -/
def unknownValues (spec : SpecDoc) : List String :=
  spec.unknown_values.getD ["-.-", ""]

/-- Embedding of
`int(self._spec.get("eco_default_duration_minutes", 180))` from
`__init__`; the document field is already an integer, so `int()` is the
identity on it. -/
def initEcoMinutes (spec : SpecDoc) : Int :=
  spec.eco_default_duration_minutes.getD 180

/-- Embedding of `set_eco_default_duration_minutes` as a state
transition on the stored value. The argument models the outcome of
`int(minutes)`: `none` when the coercion raises, `some m` when it yields
`m`; a value `≤ 0` hits the explicit `raise ValueError`, and the
`except` branch only logs, keeping the prior value. -/
def set_eco_default_duration_minutes (cur : Int) (minutes : Option Int) : Int :=
  match minutes with
  | none => cur
  | some m => if m ≤ 0 then cur else m

/-- Stored eco/comfort default value after constructing the client from
`spec` and running a sequence of setter calls. -/
def ecoAfter (spec : SpecDoc) (calls : List (Option Int)) : Int :=
  calls.foldl set_eco_default_duration_minutes (initEcoMinutes spec)

/-- Replace every occurrence of the character `pat` by `repl`; for a
single-character pattern, Python `str.replace` is exactly this
character-wise map. -/
def replaceChar (pat repl : Char) (s : String) : String :=
  ⟨s.data.map fun c => if c = pat then repl else c⟩

/-- Embedding of the static method `slugify`:
`identifier_str.replace(".", "-").replace("/", "-")`. -/
def slugify (s : String) : String :=
  replaceChar '/' '-' (replaceChar '.' '-' s)

/-- Python truthiness of an optional string OID: `None` and `""` are
falsy, every other string is truthy. -/
def truthyOid : Option String → Bool
  | none => false
  | some s => !(s == "")

/-- Keep an optional OID only when truthy (the guard `if oids.get(k):`
before registering or emitting). -/
def oidOpt : Option String → Option String
  | none => none
  | some s => if s = "" then none else some s

/-- One device dictionary appended to `self.devices`. Fields that are
absent on some device kinds are `Option`s defaulting to `none`;
`pfx` models the circuit-path key kept on climate devices for
backward compatibility. -/
structure Device where
  id : String
  name : String
  type : String
  pfx : Option String := none
  oids_map : List (String × Option String) := []
  oid : Option String := none
  device_id : String
  device_name : String
deriving DecidableEq

/-- The child-sensor roles of `_build_hk_climate_device`: the seven
temperature roles of the first loop, then `pump` and `mixer` of the
second loop. -/
inductive HKChildRole
  | room_temp | room_target_ro | flow_temp | flow_target
  | dhw_temp | dhw_target_ro | outside_temp | pump | mixer
deriving DecidableEq, Fintype

/-- OID declared by a circuit for a child role (`oids.get(key)`). -/
def HKChildRole.getOid : HKChildRole → HKOids → Option String
  | .room_temp, o => o.room_temp
  | .room_target_ro, o => o.room_target_ro
  | .flow_temp, o => o.flow_temp
  | .flow_target, o => o.flow_target
  | .dhw_temp, o => o.dhw_temp
  | .dhw_target_ro, o => o.dhw_target_ro
  | .outside_temp, o => o.outside_temp
  | .pump, o => o.pump
  | .mixer, o => o.mixer

/-- Human-readable name suffix of a child role (the part after the
circuit name in the f-strings of `_build_hk_climate_device`). -/
def HKChildRole.label : HKChildRole → String
  | .room_temp => " Room Temperature"
  | .room_target_ro => " Target Temperature (read-only)"
  | .flow_temp => " Flow Temperature"
  | .flow_target => " Flow Target"
  | .dhw_temp => " DHW Temperature"
  | .dhw_target_ro => " DHW Target (read-only)"
  | .outside_temp => " Outside Temperature"
  | .pump => " Pump"
  | .mixer => " Mixer"

/-- Device type of a child role: the first loop emits `"temperature"`
devices, the pump/mixer loop emits `"sensor"` devices. -/
def HKChildRole.typ : HKChildRole → String
  | .pump => "sensor"
  | .mixer => "sensor"
  | _ => "temperature"

/-- The child roles in emission order of `_build_hk_climate_device`. -/
def hkChildRoleList : List HKChildRole :=
  [.room_temp, .room_target_ro, .flow_temp, .flow_target,
   .dhw_temp, .dhw_target_ro, .outside_temp, .pump, .mixer]

/-- The circuit path `f"/1/\x7bnode\x7d/\x7bfct\x7d"`. -/
def hkPfx (hk : HK) : String :=
  "/1/" ++ toString hk.node ++ "/" ++ toString hk.fct

/-- The parent climate device dictionary of `_build_hk_climate_device`,
with its `oids_map` of exactly the six control/read roles. -/
def hkClimateDevice (host : String) (hk : HK) : Device :=
  { id := slugify (host ++ hkPfx hk)
    name := hk.name
    type := "climate"
    pfx := some (hkPfx hk)
    oids_map :=
      [("mode", hk.oids.mode),
       ("comfort_offset", hk.oids.comfort_offset),
       ("eco_temp", hk.oids.eco_temp),
       ("eco_duration", hk.oids.eco_duration),
       ("room_temp", hk.oids.room_temp),
       ("room_target_ro", hk.oids.room_target_ro)]
    device_id := slugify (host ++ hkPfx hk)
    device_name := hk.name }

/-- The child device emitted for role `r` when the circuit declares the
truthy OID `oid` for `r`. -/
def hkChildDevice (host : String) (hk : HK) (r : HKChildRole) (oid : String) : Device :=
  { id := slugify (host ++ oid)
    name := hk.name ++ r.label
    type := r.typ
    oid := some oid
    device_id := slugify (host ++ hkPfx hk)
    device_name := hk.name }

/-- The child devices emitted by the two loops of
`_build_hk_climate_device`: one per role whose OID is truthy, in the
fixed role order. -/
def hkChildDevices (host : String) (hk : HK) : List Device :=
  hkChildRoleList.filterMap fun r =>
    match r.getOid hk.oids with
    | none => none
    | some oid => if oid = "" then none else some (hkChildDevice host hk r oid)

/-- The six control/read role OIDs registered by the first `for k in
(...)` loop of `_build_hk_climate_device`. -/
def hkControlOids (hk : HK) : List (Option String) :=
  [hk.oids.mode, hk.oids.comfort_offset, hk.oids.eco_temp,
   hk.oids.eco_duration, hk.oids.room_temp, hk.oids.room_target_ro]

/-- All OIDs one circuit adds to `self._oids_to_fetch`: the truthy
control/read OIDs, then the truthy child-role OIDs. -/
def hkFetchOids (hk : HK) : List String :=
  (hkControlOids hk).filterMap oidOpt
    ++ hkChildRoleList.filterMap fun r => oidOpt (r.getOid hk.oids)

/-- The module path `f"/1/\x7bnode\x7d/\x7bfct\x7d"`. -/
def modPfx (m : ModuleSpec) : String :=
  "/1/" ++ toString m.node ++ "/" ++ toString m.fct

/-- The heuristic of `_build_module_sensors`:
`"temperatur" in s_name.lower()` (case-insensitive substring match of
the localized token `"temperatur"`); lower-casing is the
character-wise `Char.toLower` over the string's characters. -/
def temperaturMatch (s : String) : Bool :=
  decide ("temperatur".data <:+: s.data.map Char.toLower)

/-- The sensor device dictionary `_build_module_sensors` appends for one
listed sensor. -/
def moduleSensorDevice (host : String) (m : ModuleSpec) (s : ModuleSensor) : Device :=
  { id := slugify (host ++ s.oid)
    name := m.name ++ " " ++ s.name
    type := if temperaturMatch s.name then "temperature" else "sensor"
    oid := some s.oid
    device_id := slugify (host ++ modPfx m)
    device_name := m.name }

/-- The devices emitted by `_build_module_sensors`: one per listed
sensor, in order. -/
def moduleDevices (host : String) (m : ModuleSpec) : List Device :=
  (m.sensors.getD []).map (moduleSensorDevice host m)

/-- The OIDs one module adds to `self._oids_to_fetch`: every listed
sensor's OID, unconditionally. -/
def moduleFetchOids (m : ModuleSpec) : List String :=
  (m.sensors.getD []).map (·.oid)

/-- The device list as rebuilt at the start of `fetch_all`: for each
heating circuit the climate device then its children, then the module
sensor devices. -/
def buildDevices (host : String) (spec : SpecDoc) : List Device :=
  (spec.heating_circuits.getD []).flatMap
      (fun hk => hkClimateDevice host hk :: hkChildDevices host hk)
    ++ (spec.modules.getD []).flatMap (moduleDevices host)

/-- The multiset of OIDs accumulated into `self._oids_to_fetch` during
the rebuild (membership models set membership). -/
def requiredOids (spec : SpecDoc) : List String :=
  (spec.heating_circuits.getD []).flatMap hkFetchOids
    ++ (spec.modules.getD []).flatMap moduleFetchOids

/-- Embedding of `sorted(self._oids_to_fetch)`: the distinct OIDs in
ascending string order. -/
def sortedOids (l : List String) : List String :=
  l.dedup.mergeSort fun a b => a ≤ b

/-- A parsed lookup response JSON object: `value` models the `"value"`
key (`none` = key missing), `unit` models `js.get("unit")`. -/
structure LookupResponse where
  value : Option String
  unit : Option String
deriving DecidableEq

/-- The transport underneath `_lookup`: per OID either a parsed JSON
response or a raised transport/auth error. -/
def Transport := String → Except String LookupResponse

/-- Embedding of `_lookup`: the `try/except` absorbs every raised error
into `None`. -/
def lookupOid (t : Transport) (oid : String) : Option LookupResponse :=
  (t oid).toOption

/-- The `oids` entry `fetch_all` records for one lookup outcome:
failure or missing `"value"` key gives `None`; a sentinel value gives
`None`; anything else is recorded verbatim. -/
def oidsVal (unknown : List String) : Option LookupResponse → Option String
  | none => none
  | some js =>
    match js.value with
    | none => none
    | some v => if v ∈ unknown then none else some v

/-- The `units` entry `fetch_all` records for one lookup outcome:
`none` = no entry at all (failure or missing `"value"` key), otherwise
an entry holding `js.get("unit")`. -/
def unitsVal : Option LookupResponse → Option (Option String)
  | none => none
  | some js =>
    match js.value with
    | none => none
    | some _ => some js.unit

/-- The lookup loop of `fetch_all` over the sorted OID list, building
the `oids` and `units` dictionaries in insertion order. -/
def fetchLoop (unknown : List String) (t : Transport) :
    List String → List (String × Option String) × List (String × Option String)
  | [] => ([], [])
  | oid :: rest =>
    let r := fetchLoop unknown t rest
    match lookupOid t oid with
    | none => ((oid, none) :: r.1, r.2)
    | some js =>
      match js.value with
      | none => ((oid, none) :: r.1, r.2)
      | some v =>
        if v ∈ unknown then ((oid, none) :: r.1, (oid, js.unit) :: r.2)
        else ((oid, some v) :: r.1, (oid, js.unit) :: r.2)

/-- The consolidated result dictionary of one `fetch_all` cycle. -/
structure Snapshot where
  devices : List Device
  oids : List (String × Option String)
  units : List (String × Option String)
  meta_eco : Int
deriving DecidableEq

/-- Embedding of `fetch_all`: rebuild the device list and required-OID
set from the loaded spec, look every required OID up once in sorted
order, and assemble the snapshot. `ecoMinutes` is the current
`_eco_default_duration_minutes`. -/
def fetch_all (host : String) (spec : SpecDoc) (ecoMinutes : Int) (t : Transport) : Snapshot :=
  let pair := fetchLoop (unknownValues spec) t (sortedOids (requiredOids spec))
  { devices := buildDevices host spec
    oids := pair.1
    units := pair.2
    meta_eco := ecoMinutes }

/-- The OIDs a device descriptor references: for a climate device the
truthy values of its `oids_map`, otherwise its `oid` key. (A `None` or
empty entry names no addressable point, matching the truthiness guard
the code applies before registering an OID.) -/
def Device.refOids (d : Device) : List String :=
  if d.type = "climate" then d.oids_map.filterMap fun p => oidOpt p.2
  else d.oid.toList

/-! Concrete sample inputs, used to evaluate the theorems below on
closed instances. -/

/-- A sample heating circuit declaring `mode` and `room_temp` only. -/
def demoHK : HK :=
  { name := "HK1", node := 6, fct := 0
    oids :=
      { mode := some "/1/6/0/0"
        comfort_offset := none
        eco_temp := none
        eco_duration := none
        room_temp := some "/1/6/0/3"
        room_target_ro := none
        flow_temp := none
        flow_target := none
        dhw_temp := none
        dhw_target_ro := none
        outside_temp := none
        pump := none
        mixer := none } }

/-- A sample module sensor whose name carries the localized
temperature token. -/
def demoAussenSensor : ModuleSensor :=
  { oid := "/1/20/0/1", name := "Außentemperatur" }

/-- A sample module listing one sensor. -/
def demoModule : ModuleSpec :=
  { name := "AeroWIN", node := 20, fct := 0
    sensors := some [demoAussenSensor] }

/-- A sample specification document with one circuit and one module. -/
def demoSpec : SpecDoc :=
  { heating_circuits := some [demoHK]
    modules := some [demoModule]
    unknown_values := none
    eco_default_duration_minutes := none }

/-- A transport under total outage: every request raises. -/
def demoOutage : Transport := fun _ => Except.error "offline"

/-- A transport answering the two circuit OIDs, the second with a
sentinel value carrying a unit. -/
def demoTransport : Transport := fun oid =>
  if oid = "/1/6/0/0" then Except.ok { value := some "0", unit := none }
  else if oid = "/1/6/0/3" then Except.ok { value := some "-.-", unit := some "°C" }
  else Except.error "offline"

/-- A transport answering one OID with a value but no unit. -/
def demoNoUnitTransport : Transport := fun oid =>
  if oid = "/1/6/0/0" then Except.ok { value := some "21.5", unit := none }
  else Except.error "offline"

/-- A specification document declaring a non-positive eco default. -/
def zeroEcoSpec : SpecDoc :=
  { heating_circuits := some []
    modules := some []
    unknown_values := none
    eco_default_duration_minutes := some 0 }

/-- A specification document declaring a positive eco default. -/
def posEcoSpec : SpecDoc :=
  { heating_circuits := some []
    modules := some []
    unknown_values := none
    eco_default_duration_minutes := some 200 }

/-! Helper lemmas. -/

/-- String concatenation is left-cancellative. -/
theorem string_append_left_cancel {s t u : String} (h : s ++ t = s ++ u) : t = u := by
  have h2 : (s ++ t).data = (s ++ u).data := by rw [h]
  rw [String.data_append, String.data_append] at h2
  exact String.ext (List.append_cancel_left h2)

/-- Characterization of the truthiness filter. -/
theorem oidOpt_eq_some (x : Option String) (y : String) :
    oidOpt x = some y ↔ x = some y ∧ y ≠ "" := by
  constructor
  · intro h2
    rcases x with _ | s
    · cases h2
    · by_cases h : s = ""
      · rw [show oidOpt (some s) = if s = "" then none else some s from rfl, if_pos h] at h2
        cases h2
      · rw [show oidOpt (some s) = if s = "" then none else some s from rfl, if_neg h] at h2
        cases h2
        exact ⟨rfl, h⟩
  · rintro ⟨rfl, hne⟩
    rw [show oidOpt (some y) = if y = "" then none else some y from rfl, if_neg hne]

/-- An optional OID is truthy exactly when it is a non-empty string. -/
theorem truthyOid_iff (x : Option String) :
    truthyOid x = true ↔ ∃ s, x = some s ∧ s ≠ "" := by
  cases x with
  | none => simp [truthyOid]
  | some s => simp [truthyOid]

/-- No child role emits a climate-typed device. -/
theorem hkChildRole_typ_ne_climate : ∀ r : HKChildRole, r.typ ≠ "climate" := by decide

/-- Every child role occurs in the emission-order role list. -/
theorem mem_hkChildRoleList : ∀ r : HKChildRole, r ∈ hkChildRoleList := by decide

/-- Membership in the emitted child-device list of one circuit. -/
theorem mem_hkChildDevices (host : String) (hk : HK) (d : Device) :
    d ∈ hkChildDevices host hk
      ↔ ∃ r : HKChildRole, ∃ oid, r.getOid hk.oids = some oid ∧ oid ≠ ""
          ∧ d = hkChildDevice host hk r oid := by
  unfold hkChildDevices
  rw [List.mem_filterMap]
  constructor
  · rintro ⟨r, hr, hfr⟩
    rcases hg : r.getOid hk.oids with _ | oid
    · rw [hg] at hfr
      cases hfr
    · rw [hg] at hfr
      by_cases he : oid = ""
      · simp [he] at hfr
      · simp only [if_neg he] at hfr
        cases hfr
        exact ⟨r, oid, hg, he, rfl⟩
  · rintro ⟨r, oid, hg, hne, rfl⟩
    refine ⟨r, mem_hkChildRoleList r, ?_⟩
    rw [hg]
    simp [hne]

/-- A child device references exactly its own OID. -/
theorem hkChildDevice_refOids (host : String) (hk : HK) (r : HKChildRole) (oid : String) :
    (hkChildDevice host hk r oid).refOids = [oid] := by
  have h : (hkChildDevice host hk r oid).type = r.typ := rfl
  rw [Device.refOids, h, if_neg (hkChildRole_typ_ne_climate r)]
  rfl

/-- The climate device references exactly the truthy control OIDs. -/
theorem hkClimateDevice_refOids (host : String) (hk : HK) :
    (hkClimateDevice host hk).refOids = (hkControlOids hk).filterMap oidOpt := by
  rw [Device.refOids, if_pos (show (hkClimateDevice host hk).type = "climate" from rfl)]
  have h : (hkClimateDevice host hk).oids_map.map Prod.snd = hkControlOids hk := rfl
  rw [← h, List.filterMap_map]
  rfl

/-- A module sensor device references exactly its own OID. -/
theorem moduleSensorDevice_refOids (host : String) (m : ModuleSpec) (s : ModuleSensor) :
    (moduleSensorDevice host m s).refOids = [s.oid] := by
  have hne : (moduleSensorDevice host m s).type ≠ "climate" := by
    show (if temperaturMatch s.name then "temperature" else "sensor") ≠ "climate"
    by_cases h : temperaturMatch s.name <;> simp [h]
  rw [Device.refOids, if_neg hne]
  rfl

/-- Distinct OIDs in sorted order preserve membership. -/
theorem mem_sortedOids (l : List String) (oid : String) :
    oid ∈ sortedOids l ↔ oid ∈ l := by
  rw [sortedOids, List.mem_mergeSort, List.mem_dedup]

/-- The `oids` list the fetch loop builds, entry by entry. -/
theorem fetchLoop_fst (u : List String) (t : Transport) (l : List String) :
    (fetchLoop u t l).1 = l.map fun oid => (oid, oidsVal u (lookupOid t oid)) := by
  induction l with
  | nil => rfl
  | cons oid rest ih =>
    simp only [fetchLoop, List.map_cons]
    rcases h : lookupOid t oid with _ | js
    · simp [h, oidsVal, ih]
    · rcases hv : js.value with _ | v
      · simp [h, hv, oidsVal, ih]
      · by_cases hm : v ∈ u
        · simp [h, hv, hm, oidsVal, ih]
        · simp [h, hv, hm, oidsVal, ih]

/-- The `units` list the fetch loop builds, entry by entry. -/
theorem fetchLoop_snd (u : List String) (t : Transport) (l : List String) :
    (fetchLoop u t l).2
      = l.filterMap fun oid => (unitsVal (lookupOid t oid)).map fun w => (oid, w) := by
  induction l with
  | nil => rfl
  | cons oid rest ih =>
    simp only [fetchLoop, List.filterMap_cons]
    rcases h : lookupOid t oid with _ | js
    · simp [h, unitsVal, ih]
    · rcases hv : js.value with _ | v
      · simp [h, hv, unitsVal, ih]
      · by_cases hm : v ∈ u
        · simp [h, hv, hm, unitsVal, ih]
        · simp [h, hv, hm, unitsVal, ih]

/-- Looking an absent key up in a key-value list built by `filterMap`. -/
theorem lookup_filterMap_not_mem {β : Type} (l : List String) (g : String → Option β)
    (oid : String) (h : oid ∉ l) :
    (l.filterMap fun o => (g o).map fun w => (o, w)).lookup oid = none := by
  induction l with
  | nil => rfl
  | cons a rest ih =>
    have ha : oid ≠ a := fun he => h (he ▸ List.mem_cons_self a rest)
    have hr : oid ∉ rest := fun he => h (List.mem_cons_of_mem a he)
    rcases hg : g a with _ | w
    · simp only [List.filterMap_cons, hg, Option.map_none']
      exact ih hr
    · simp only [List.filterMap_cons, hg, Option.map_some']
      simpa [List.lookup_cons, beq_false_of_ne ha] using ih hr

/-- Looking a present key up in a key-value list built by `filterMap`
from a per-key entry function. -/
theorem lookup_filterMap_mem {β : Type} (l : List String) (g : String → Option β)
    (oid : String) (h : oid ∈ l) :
    (l.filterMap fun o => (g o).map fun w => (o, w)).lookup oid = g oid := by
  induction l with
  | nil => cases h
  | cons a rest ih =>
    by_cases ha : oid = a
    · subst ha
      rcases hg : g oid with _ | w
      · simp only [List.filterMap_cons, hg, Option.map_none']
        by_cases hr : oid ∈ rest
        · rw [ih hr, hg]
        · exact lookup_filterMap_not_mem rest g oid hr
      · simp only [List.filterMap_cons, hg, Option.map_some']
        simp [List.lookup_cons]
    · have hr : oid ∈ rest := by
        rcases List.mem_cons.1 h with h1 | h1
        · exact absurd h1 ha
        · exact h1
      rcases hg : g a with _ | w
      · simp only [List.filterMap_cons, hg, Option.map_none']
        exact ih hr
      · simp only [List.filterMap_cons, hg, Option.map_some']
        simpa [List.lookup_cons, beq_false_of_ne ha] using ih hr

/-- Mapping the key out of a key-value graph list recovers the keys. -/
theorem map_fst_graph {β : Type} (l : List String) (f : String → β) :
    (l.map fun o => (o, f o)).map Prod.fst = l := by
  induction l with
  | nil => rfl
  | cons a rest ih => simp [ih]

/-- The `oids` entry of a fetched snapshot, for any required OID. -/
theorem fetch_oids_lookup (host : String) (spec : SpecDoc) (eco : Int) (t : Transport)
    (oid : String) (h : oid ∈ requiredOids spec) :
    (fetch_all host spec eco t).oids.lookup oid
      = some (oidsVal (unknownValues spec) (lookupOid t oid)) := by
  show (fetchLoop (unknownValues spec) t (sortedOids (requiredOids spec))).1.lookup oid = _
  rw [fetchLoop_fst]
  exact List.lookup_graph _ ((mem_sortedOids _ oid).2 h)

/-- The `units` entry of a fetched snapshot, for any required OID. -/
theorem fetch_units_lookup (host : String) (spec : SpecDoc) (eco : Int) (t : Transport)
    (oid : String) (h : oid ∈ requiredOids spec) :
    (fetch_all host spec eco t).units.lookup oid = unitsVal (lookupOid t oid) := by
  show (fetchLoop (unknownValues spec) t (sortedOids (requiredOids spec))).2.lookup oid = _
  rw [fetchLoop_snd]
  exact lookup_filterMap_mem _ _ oid ((mem_sortedOids _ oid).2 h)

/-- C1: for every specification and every outcome of the per-OID
lookups, `fetch_all` returns a Snapshot (it is a total function of the
transport, every raised lookup error being absorbed), every OID in the
required-OID set appears as a key of the Snapshot's `oids` mapping,
an OID whose lookup failed maps to absent, the devices list is the
full rebuilt device list regardless of lookups, and under a total
transport outage every required OID maps to absent. -/
theorem spec_fetch_all_complete_snapshot (host : String) (spec : SpecDoc) (eco : Int)
    (t : Transport) :
    (∀ oid ∈ requiredOids spec, oid ∈ (fetch_all host spec eco t).oids.map Prod.fst)
    ∧ (∀ oid ∈ requiredOids spec, lookupOid t oid = none →
        (fetch_all host spec eco t).oids.lookup oid = some none)
    ∧ (fetch_all host spec eco t).devices = buildDevices host spec
    ∧ ((∀ o : String, ∃ e, t o = Except.error e) →
        ∀ oid ∈ requiredOids spec,
          (fetch_all host spec eco t).oids.lookup oid = some none) := by
  refine ⟨?_, ?_, rfl, ?_⟩
  · intro oid h
    have hkeys : (fetch_all host spec eco t).oids.map Prod.fst
        = sortedOids (requiredOids spec) := by
      show ((fetchLoop (unknownValues spec) t
        (sortedOids (requiredOids spec))).1).map Prod.fst = _
      rw [fetchLoop_fst]
      exact map_fst_graph _ _
    rw [hkeys, mem_sortedOids]
    exact h
  · intro oid h hfail
    rw [fetch_oids_lookup host spec eco t oid h, hfail]
    rfl
  · intro hout oid h
    rcases hout oid with ⟨e, he⟩
    have hnone : lookupOid t oid = none := by
      unfold lookupOid
      rw [he]
      rfl
    rw [fetch_oids_lookup host spec eco t oid h, hnone]
    rfl

/-- Closed instance of C1: under total outage, the required OID
`/1/6/0/3` of the sample spec maps to absent without any failure. -/
theorem spec_fetch_all_complete_snapshot_witness :
    (fetch_all "192.168.0.10" demoSpec 180 demoOutage).oids.lookup "/1/6/0/3" = some none :=
  (spec_fetch_all_complete_snapshot "192.168.0.10" demoSpec 180 demoOutage).2.2.2
    (fun _ => ⟨"offline", rfl⟩) "/1/6/0/3" (by decide)

/-- C3: classification of each lookup outcome during `fetch_all`: a
failed lookup or a response without `value` records the OID absent and
no unit entry; a sentinel value records the OID absent while the unit
is still recorded; any other value is recorded verbatim with its
unit. -/
theorem spec_fetch_classification (host : String) (spec : SpecDoc) (eco : Int)
    (t : Transport) (oid : String) (h : oid ∈ requiredOids spec) :
    (lookupOid t oid = none →
        (fetch_all host spec eco t).oids.lookup oid = some none
        ∧ (fetch_all host spec eco t).units.lookup oid = none)
    ∧ (∀ js, lookupOid t oid = some js → js.value = none →
        (fetch_all host spec eco t).oids.lookup oid = some none
        ∧ (fetch_all host spec eco t).units.lookup oid = none)
    ∧ (∀ js v, lookupOid t oid = some js → js.value = some v → v ∈ unknownValues spec →
        (fetch_all host spec eco t).oids.lookup oid = some none
        ∧ (fetch_all host spec eco t).units.lookup oid = some js.unit)
    ∧ (∀ js v, lookupOid t oid = some js → js.value = some v → v ∉ unknownValues spec →
        (fetch_all host spec eco t).oids.lookup oid = some (some v)
        ∧ (fetch_all host spec eco t).units.lookup oid = some js.unit) := by
  have ho := fetch_oids_lookup host spec eco t oid h
  have hu := fetch_units_lookup host spec eco t oid h
  refine ⟨?_, ?_, ?_, ?_⟩
  · intro hn
    rw [hn] at ho hu
    exact ⟨ho, hu⟩
  · intro js hs hv
    rw [hs] at ho hu
    simp only [oidsVal, unitsVal, hv] at ho hu
    exact ⟨ho, hu⟩
  · intro js v hs hv hm
    rw [hs] at ho hu
    simp only [oidsVal, unitsVal, hv, if_pos hm] at ho hu
    exact ⟨ho, hu⟩
  · intro js v hs hv hm
    rw [hs] at ho hu
    simp only [oidsVal, unitsVal, hv, if_neg hm] at ho hu
    exact ⟨ho, hu⟩

/-- Closed instance of C3: a sentinel reading for `/1/6/0/3` is
recorded absent while its unit is recorded. -/
theorem spec_fetch_classification_witness :
    (fetch_all "192.168.0.10" demoSpec 180 demoTransport).oids.lookup "/1/6/0/3" = some none
    ∧ (fetch_all "192.168.0.10" demoSpec 180 demoTransport).units.lookup "/1/6/0/3"
        = some (some "°C") :=
  (spec_fetch_classification "192.168.0.10" demoSpec 180 demoTransport "/1/6/0/3"
      (by decide)).2.2.1 ⟨some "-.-", some "°C"⟩ "-.-" (by decide) rfl (by decide)

/-- C10: a required OID is a key of `units` iff its lookup succeeded
with a `value` field; in that case the recorded entry is the
response's unit (possibly absent), independent of sentinel
classification. -/
theorem spec_units_key_iff_value (host : String) (spec : SpecDoc) (eco : Int)
    (t : Transport) (oid : String) (h : oid ∈ requiredOids spec) :
    ((∃ u, (fetch_all host spec eco t).units.lookup oid = some u)
        ↔ ∃ js v, lookupOid t oid = some js ∧ js.value = some v)
    ∧ (∀ js v, lookupOid t oid = some js → js.value = some v →
        (fetch_all host spec eco t).units.lookup oid = some js.unit) := by
  have hu := fetch_units_lookup host spec eco t oid h
  constructor
  · rw [hu]
    constructor
    · rintro ⟨u, hl⟩
      rcases hjs : lookupOid t oid with _ | js
      · rw [hjs] at hl
        cases hl
      · rcases hv : js.value with _ | v
        · rw [hjs] at hl
          simp only [unitsVal, hv] at hl
          cases hl
        · exact ⟨js, v, rfl, hv⟩
    · rintro ⟨js, v, hjs, hv⟩
      rw [hjs]
      simp only [unitsVal, hv]
      exact ⟨js.unit, rfl⟩
  · intro js v hjs hv
    rw [hu, hjs]
    simp only [unitsVal, hv]

/-- Closed instance of C10: a response with a value but no unit still
creates a `units` entry, mapped to absent. -/
theorem spec_units_key_iff_value_witness :
    (fetch_all "192.168.0.10" demoSpec 180 demoNoUnitTransport).units.lookup "/1/6/0/0"
      = some none :=
  (spec_units_key_iff_value "192.168.0.10" demoSpec 180 demoNoUnitTransport "/1/6/0/0"
      (by decide)).2 ⟨some "21.5", none⟩ "21.5" (by decide) rfl

/-- C5: the eco-duration setter accepts a coerced integer greater than
zero, and on a non-coercible input or a value `≤ 0` keeps the prior
value without raising; in particular `set 45`, then `set (-1)`, then a
non-coercible input leave the stored value at 45. -/
theorem spec_eco_setter_contract (v : Int) :
    (∀ m : Int, 0 < m → set_eco_default_duration_minutes v (some m) = m)
    ∧ (∀ m : Int, m ≤ 0 → set_eco_default_duration_minutes v (some m) = v)
    ∧ set_eco_default_duration_minutes v none = v
    ∧ set_eco_default_duration_minutes
        (set_eco_default_duration_minutes v (some 45)) (some (-1)) = 45
    ∧ set_eco_default_duration_minutes
        (set_eco_default_duration_minutes
          (set_eco_default_duration_minutes v (some 45)) (some (-1))) none = 45 := by
  have h1 : set_eco_default_duration_minutes v (some 45) = 45 := by
    simp only [set_eco_default_duration_minutes]
    rw [if_neg (by norm_num)]
  refine ⟨?_, ?_, rfl, ?_, ?_⟩
  · intro m hm
    simp only [set_eco_default_duration_minutes]
    rw [if_neg (by omega)]
  · intro m hm
    simp only [set_eco_default_duration_minutes]
    rw [if_pos hm]
  · rw [h1]
    decide
  · rw [h1]
    decide

/-- Closed instance of C5: setting 45 from a prior value of 7 yields
45. -/
theorem spec_eco_setter_contract_witness :
    (0 : Int) < 45 ∧ set_eco_default_duration_minutes 7 (some 45) = 45 :=
  ⟨by decide, (spec_eco_setter_contract 7).1 45 (by decide)⟩

/-- C6 fails as stated: a loaded specification document may declare a
non-positive `eco_default_duration_minutes` (here 0), and the client
stores it unvalidated at construction, so `get()` is not positive. -/
theorem spec_eco_invariant_counterexample : ¬ (0 < ecoAfter zeroEcoSpec []) := by decide

/-- The setter preserves positivity of the stored value. -/
theorem eco_pos_preserved (cur : Int) (m : Option Int) (h : 0 < cur) :
    0 < set_eco_default_duration_minutes cur m := by
  rcases m with _ | i
  · exact h
  · simp only [set_eco_default_duration_minutes]
    split
    · exact h
    · omega

/-- Any sequence of setter calls preserves positivity. -/
theorem eco_foldl_pos (calls : List (Option Int)) (cur : Int) (h : 0 < cur) :
    0 < calls.foldl set_eco_default_duration_minutes cur := by
  induction calls generalizing cur with
  | nil => exact h
  | cons a rest ih =>
    rw [List.foldl_cons]
    exact ih _ (eco_pos_preserved cur a h)

/-- C6 (amended): provided the specification document's
`eco_default_duration_minutes`, when present, is a positive integer,
the stored eco/comfort default is a positive integer after
construction (default 180 when omitted) and after any sequence of
setter calls. -/
theorem spec_eco_invariant_amended (spec : SpecDoc)
    (hpos : ∀ m : Int, spec.eco_default_duration_minutes = some m → 0 < m)
    (calls : List (Option Int)) : 0 < ecoAfter spec calls := by
  have h0 : 0 < initEcoMinutes spec := by
    rcases hm : spec.eco_default_duration_minutes with _ | m
    · simp only [initEcoMinutes, hm, Option.getD_none]
      decide
    · have h1 := hpos m hm
      simp only [initEcoMinutes, hm, Option.getD_some]
      exact h1
  exact eco_foldl_pos calls _ h0

/-- Closed instance of the amended C6: a document declaring 200 keeps
the invariant through rejected and accepted setter calls. -/
theorem spec_eco_invariant_amended_witness :
    0 < ecoAfter posEcoSpec [some (-3), none, some 45] :=
  spec_eco_invariant_amended posEcoSpec
    (by
      intro m hm
      simp only [posEcoSpec, Option.some.injEq] at hm
      omega)
    [some (-3), none, some 45]

/-- C8: the loader never fails outward: every parse/IO error yields
the empty fallback document, under which the client's defaults are
`unknown_values` of the two sentinels and an eco default of 180. -/
theorem spec_loader_fallback (e : String) :
    loadSpec (Except.error e) = fallbackSpec
    ∧ fallbackSpec.heating_circuits = some []
    ∧ fallbackSpec.modules = some []
    ∧ unknownValues fallbackSpec = ["-.-", ""]
    ∧ initEcoMinutes fallbackSpec = 180 :=
  ⟨rfl, rfl, rfl, rfl, rfl⟩

/-- One character step of `slugify`: the two sequential replacements
act as a single dot-or-slash-to-dash replacement. -/
theorem slugify_char_step (c : Char) :
    (fun c : Char => if c = '/' then '-' else c)
        ((fun c : Char => if c = '.' then '-' else c) c)
      = if c = '.' ∨ c = '/' then '-' else c := by
  by_cases h1 : c = '.'
  · subst h1
    decide
  · by_cases h2 : c = '/'
    · subst h2
      decide
    · simp [h1, h2]

/-- The dot-or-slash-to-dash replacement is idempotent per character. -/
theorem slugify_char_idem (c : Char) :
    (fun c : Char => if c = '.' ∨ c = '/' then '-' else c)
        ((fun c : Char => if c = '.' ∨ c = '/' then '-' else c) c)
      = (fun c : Char => if c = '.' ∨ c = '/' then '-' else c) c := by
  by_cases hc : c = '.' ∨ c = '/'
  · rcases hc with rfl | rfl <;> decide
  · simp [hc]

/-- C9: `slugify` (a pure function, hence deterministic) replaces
every `.` and `/` of its input by `-` and is idempotent. -/
theorem spec_slugify_idempotent (x : String) :
    (slugify x).data = x.data.map (fun c => if c = '.' ∨ c = '/' then '-' else c)
    ∧ slugify (slugify x) = slugify x := by
  have hdata : ∀ y : String,
      (slugify y).data = y.data.map fun c => if c = '.' ∨ c = '/' then '-' else c := by
    intro y
    rw [show (slugify y).data
        = (y.data.map fun c => if c = '.' then '-' else c).map
            (fun c => if c = '/' then '-' else c) from rfl]
    rw [List.map_map]
    exact List.map_congr_left fun c _ => slugify_char_step c
  refine ⟨hdata x, String.ext ?_⟩
  rw [hdata (slugify x), hdata x, List.map_map]
  exact List.map_congr_left fun c _ => slugify_char_idem c

/-- No child device of a circuit is climate-typed. -/
theorem hkChildDevices_filter_climate (host : String) (hk : HK) :
    (hkChildDevices host hk).filter (fun d => d.type == "climate") = [] := by
  rw [List.filter_eq_nil_iff]
  intro d hd
  rcases (mem_hkChildDevices host hk d).1 hd with ⟨r, oid, hg, hne, rfl⟩
  have h := hkChildRole_typ_ne_climate r
  show ¬((hkChildDevice host hk r oid).type == "climate") = true
  simpa using h

/-- The climate devices among a circuit list's emitted devices are
exactly one per circuit, in order. -/
theorem hkBlocks_filter_climate (host : String) (hks : List HK) :
    (hks.flatMap fun hk => hkClimateDevice host hk :: hkChildDevices host hk).filter
        (fun d => d.type == "climate") = hks.map (hkClimateDevice host) := by
  induction hks with
  | nil => rfl
  | cons hk rest ih =>
    rw [List.flatMap_cons, List.filter_append, ih, List.map_cons]
    rw [show List.filter (fun d => d.type == "climate")
          (hkClimateDevice host hk :: hkChildDevices host hk)
        = hkClimateDevice host hk
            :: List.filter (fun d => d.type == "climate") (hkChildDevices host hk)
      from List.filter_cons_of_pos rfl]
    rw [hkChildDevices_filter_climate]
    rfl

/-- No module sensor device is climate-typed. -/
theorem modBlocks_filter_climate (host : String) (ms : List ModuleSpec) :
    (ms.flatMap (moduleDevices host)).filter (fun d => d.type == "climate") = [] := by
  rw [List.filter_eq_nil_iff]
  intro d hd
  rcases List.mem_flatMap.1 hd with ⟨m, hm, hdm⟩
  rcases List.mem_map.1 hdm with ⟨s, hs, rfl⟩
  show ¬((if temperaturMatch s.name then "temperature" else "sensor" : String) == "climate") = true
  by_cases h : temperaturMatch s.name
  · rw [if_pos h]
    decide
  · rw [if_neg h]
    decide

/-- C2: for every specification, the build emits exactly one
climate-typed device per heating circuit (the climate devices of the
built list are, in order, one per circuit), and that device's
`oids_map` holds exactly the six fixed role keys, each mapped to the
circuit's declared OID for that role or to absent. -/
theorem spec_build_one_climate_per_circuit (host : String) (spec : SpecDoc) :
    ((buildDevices host spec).filter (fun d => d.type == "climate")
        = (spec.heating_circuits.getD []).map (hkClimateDevice host))
    ∧ (∀ hk : HK,
        (hkClimateDevice host hk).oids_map.map Prod.fst
          = ["mode", "comfort_offset", "eco_temp", "eco_duration", "room_temp",
             "room_target_ro"]
        ∧ (hkClimateDevice host hk).oids_map.lookup "mode" = some hk.oids.mode
        ∧ (hkClimateDevice host hk).oids_map.lookup "comfort_offset"
            = some hk.oids.comfort_offset
        ∧ (hkClimateDevice host hk).oids_map.lookup "eco_temp" = some hk.oids.eco_temp
        ∧ (hkClimateDevice host hk).oids_map.lookup "eco_duration"
            = some hk.oids.eco_duration
        ∧ (hkClimateDevice host hk).oids_map.lookup "room_temp" = some hk.oids.room_temp
        ∧ (hkClimateDevice host hk).oids_map.lookup "room_target_ro"
            = some hk.oids.room_target_ro) := by
  constructor
  · rw [buildDevices, List.filter_append, hkBlocks_filter_climate,
      modBlocks_filter_climate, List.append_nil]
  · intro hk
    exact ⟨rfl, rfl, rfl, rfl, rfl, rfl, rfl⟩

/-- C4: a child temperature/sensor device for a role is emitted by a
circuit if and only if the circuit declares a truthy (non-empty) OID
for that role, and the required-OID set contains exactly the OIDs
referenced by emitted devices. -/
theorem spec_child_emission_iff (host : String) (spec : SpecDoc) :
    (∀ hk ∈ spec.heating_circuits.getD [], ∀ r : HKChildRole,
        ((∃ d ∈ hkChildDevices host hk,
            d.name = hk.name ++ r.label ∧ d.type = r.typ ∧ d.oid = r.getOid hk.oids)
          ↔ truthyOid (r.getOid hk.oids) = true))
    ∧ (∀ oid : String,
        oid ∈ requiredOids spec ↔ ∃ d ∈ buildDevices host spec, oid ∈ d.refOids) := by
  constructor
  · intro hk _ r
    constructor
    · rintro ⟨d, hd, hname, htyp, hoid⟩
      rcases (mem_hkChildDevices host hk d).1 hd with ⟨r2, oid2, hg2, hne2, rfl⟩
      have hoid2 : (hkChildDevice host hk r2 oid2).oid = some oid2 := rfl
      rw [hoid2] at hoid
      rw [truthyOid_iff]
      exact ⟨oid2, hoid.symm, hne2⟩
    · intro ht
      rcases (truthyOid_iff _).1 ht with ⟨oid, hg, hne⟩
      refine ⟨hkChildDevice host hk r oid,
        (mem_hkChildDevices host hk _).2 ⟨r, oid, hg, hne, rfl⟩, rfl, rfl, ?_⟩
      rw [show (hkChildDevice host hk r oid).oid = some oid from rfl, hg]
  · intro oid
    rw [requiredOids, buildDevices]
    constructor
    · intro hmem
      rcases List.mem_append.1 hmem with hc | hm
      · rcases List.mem_flatMap.1 hc with ⟨hk, hhk, hoid⟩
        rcases List.mem_append.1 (by rwa [hkFetchOids] at hoid) with hctrl | hchild
        · refine ⟨hkClimateDevice host hk, ?_, ?_⟩
          · exact List.mem_append_left _
              (List.mem_flatMap.2 ⟨hk, hhk, List.mem_cons_self _ _⟩)
          · rw [hkClimateDevice_refOids]
            exact hctrl
        · rcases List.mem_filterMap.1 hchild with ⟨r, hr, hfr⟩
          rcases (oidOpt_eq_some _ _).1 hfr with ⟨hg, hne⟩
          refine ⟨hkChildDevice host hk r oid, ?_, ?_⟩
          · exact List.mem_append_left _ (List.mem_flatMap.2 ⟨hk, hhk,
              List.mem_cons_of_mem _
                ((mem_hkChildDevices host hk _).2 ⟨r, oid, hg, hne, rfl⟩)⟩)
          · rw [hkChildDevice_refOids]
            exact List.mem_singleton.2 rfl
      · rcases List.mem_flatMap.1 hm with ⟨m, hmm, hoid⟩
        rcases List.mem_map.1 (by rwa [moduleFetchOids] at hoid) with ⟨s, hs, rfl⟩
        refine ⟨moduleSensorDevice host m s, ?_, ?_⟩
        · exact List.mem_append_right _
            (List.mem_flatMap.2 ⟨m, hmm, List.mem_map.2 ⟨s, hs, rfl⟩⟩)
        · rw [moduleSensorDevice_refOids]
          exact List.mem_singleton.2 rfl
    · rintro ⟨d, hd, hoid⟩
      rcases List.mem_append.1 hd with hc | hm
      · rcases List.mem_flatMap.1 hc with ⟨hk, hhk, hdin⟩
        rcases List.mem_cons.1 hdin with rfl | hchild
        · rw [hkClimateDevice_refOids] at hoid
          exact List.mem_append_left _ (List.mem_flatMap.2 ⟨hk, hhk,
            by
              rw [hkFetchOids]
              exact List.mem_append_left _ hoid⟩)
        · rcases (mem_hkChildDevices host hk d).1 hchild with ⟨r, oid2, hg, hne, rfl⟩
          rw [hkChildDevice_refOids] at hoid
          rcases List.mem_singleton.1 hoid with rfl
          exact List.mem_append_left _ (List.mem_flatMap.2 ⟨hk, hhk,
            by
              rw [hkFetchOids]
              exact List.mem_append_right _ (List.mem_filterMap.2
                ⟨r, mem_hkChildRoleList r, (oidOpt_eq_some _ _).2 ⟨hg, hne⟩⟩)⟩)
      · rcases List.mem_flatMap.1 hm with ⟨m, hmm, hdin⟩
        rcases List.mem_map.1 hdin with ⟨s, hs, rfl⟩
        rw [moduleSensorDevice_refOids] at hoid
        rcases List.mem_singleton.1 hoid with rfl
        exact List.mem_append_right _ (List.mem_flatMap.2 ⟨m, hmm,
          by
            rw [moduleFetchOids]
            exact List.mem_map.2 ⟨s, hs, rfl⟩⟩)

/-- Closed instance of C4: the sample circuit declares `room_temp`, so
its room-temperature child device is emitted. -/
theorem spec_child_emission_iff_witness :
    ∃ d ∈ hkChildDevices "192.168.0.10" demoHK,
      d.name = demoHK.name ++ HKChildRole.room_temp.label
      ∧ d.type = HKChildRole.room_temp.typ
      ∧ d.oid = HKChildRole.room_temp.getOid demoHK.oids :=
  ((spec_child_emission_iff "192.168.0.10" demoSpec).1 demoHK (by decide)
      HKChildRole.room_temp).mpr (by decide)

/-- C7: the build emits one child device per listed module sensor, its
type is `temperature` exactly when the case-insensitive localized
token `"temperatur"` occurs in the sensor's declared name (and
`sensor` otherwise), and every module sensor's OID enters the
required-OID set. -/
theorem spec_module_sensor_typing (host : String) (spec : SpecDoc) :
    (∀ m : ModuleSpec,
        moduleDevices host m = (m.sensors.getD []).map (moduleSensorDevice host m))
    ∧ (∀ (m : ModuleSpec) (s : ModuleSensor),
        ((moduleSensorDevice host m s).type = "temperature"
            ↔ temperaturMatch s.name = true)
        ∧ ((moduleSensorDevice host m s).type = "sensor"
            ↔ temperaturMatch s.name = false))
    ∧ (∀ m ∈ spec.modules.getD [], ∀ s ∈ m.sensors.getD [],
        moduleSensorDevice host m s ∈ buildDevices host spec
        ∧ s.oid ∈ requiredOids spec) := by
  refine ⟨fun m => rfl, ?_, ?_⟩
  · intro m s
    have htype : (moduleSensorDevice host m s).type
        = (if temperaturMatch s.name then "temperature" else "sensor") := rfl
    by_cases h : temperaturMatch s.name
    · rw [htype, if_pos h]
      refine ⟨⟨fun _ => h, fun _ => rfl⟩, ?_, ?_⟩
      · intro heq
        exact absurd heq (by decide)
      · intro hf
        rw [h] at hf
        cases hf
    · have hfalse : temperaturMatch s.name = false := by
        cases htm : temperaturMatch s.name
        · rfl
        · exact absurd htm h
      rw [htype, if_neg h]
      refine ⟨⟨?_, ?_⟩, fun _ => hfalse, fun _ => rfl⟩
      · intro heq
        exact absurd heq (by decide)
      · intro htrue
        exact absurd htrue h
  · intro m hm s hs
    constructor
    · rw [buildDevices]
      exact List.mem_append_right _
        (List.mem_flatMap.2 ⟨m, hm, List.mem_map.2 ⟨s, hs, rfl⟩⟩)
    · rw [requiredOids]
      exact List.mem_append_right _ (List.mem_flatMap.2 ⟨m, hm,
        by
          rw [moduleFetchOids]
          exact List.mem_map.2 ⟨s, hs, rfl⟩⟩)

/-- Closed instance of C7: the sample module sensor named with the
localized temperature token is emitted as a temperature device and its
OID is required. -/
theorem spec_module_sensor_typing_witness :
    (moduleSensorDevice "192.168.0.10" demoModule demoAussenSensor).type = "temperature"
    ∧ moduleSensorDevice "192.168.0.10" demoModule demoAussenSensor
        ∈ buildDevices "192.168.0.10" demoSpec
    ∧ "/1/20/0/1" ∈ requiredOids demoSpec :=
  ⟨((spec_module_sensor_typing "192.168.0.10" demoSpec).2.1 demoModule
      demoAussenSensor).1.mpr (by decide),
   ((spec_module_sensor_typing "192.168.0.10" demoSpec).2.2 demoModule (by decide)
      demoAussenSensor (by decide)).1,
   ((spec_module_sensor_typing "192.168.0.10" demoSpec).2.2 demoModule (by decide)
      demoAussenSensor (by decide)).2⟩

end Windhager
